import Mathlib

/-!
# Verification of the TCG listing aggregation and cost-ranking model

Shallow embedding of `src/scraper.py`: the `Condition` enumeration, `Listing` and
`Store` classes with their derived quantities, the numeric-text extraction routine
`find_price`, and the aggregation loop of `TCGPlayerParser.parse_page` /
`scrape_prices` (blacklist filter, store creation, dedup check, ranking sort).

Money amounts (Python `float` values produced by `float(...)` on decimal text) are
embedded as rationals `ℚ`; quantities (Python `int` produced by `int(...)` on a
digit run) as naturals `ℕ`.
-/

/-- The `Condition` enumeration from scraper.py lines 13-23: 5 physical grades
times 2 finishes. -/
inductive Condition where
  | NEAR_MINT
  | LIGHTLY_PLAYED
  | MODERATELY_PLAYED
  | HEAVILY_PLAYED
  | DAMAGED
  | NEAR_MINT_FOIL
  | LIGHTLY_PLAYED_FOIL
  | MODERATELY_PLAYED_FOIL
  | HEAVILY_PLAYED_FOIL
  | DAMAGED_FOIL
deriving DecidableEq

/-- `Condition(raw_text)` from scraper.py line 310: construction of the enum from
its display string; `none` models the `ValueError` Python raises for a string that
matches none of the 10 labels. -/
def Condition.fromString : String → Option Condition
  | "Near Mint" => some .NEAR_MINT
  | "Lightly Played" => some .LIGHTLY_PLAYED
  | "Moderately Played" => some .MODERATELY_PLAYED
  | "Heavily Played" => some .HEAVILY_PLAYED
  | "Damaged" => some .DAMAGED
  | "Near Mint Foil" => some .NEAR_MINT_FOIL
  | "Lightly Played Foil" => some .LIGHTLY_PLAYED_FOIL
  | "Moderately Played Foil" => some .MODERATELY_PLAYED_FOIL
  | "Heavily Played Foil" => some .HEAVILY_PLAYED_FOIL
  | "Damaged Foil" => some .DAMAGED_FOIL
  | _ => none

/-- The `Listing` class from scraper.py lines 26-52: one condition/price/quantity
triple. -/
structure Listing where
  condition : Condition
  price : ℚ
  quantity : ℕ
deriving DecidableEq

/-- `Listing.total_price` (scraper.py lines 39-45): `price * quantity`. -/
def Listing.total_price (l : Listing) : ℚ := l.price * l.quantity

/-- The `Store` class from scraper.py lines 55-213: seller name, flat shipping
cost, optional free-shipping threshold, and the accumulated listings. -/
structure Store where
  name : String
  shipping : ℚ
  free_threshold : Option ℚ
  listings : List Listing
deriving DecidableEq

/-- `Store.add_listing` (scraper.py lines 70-77): appends a new `Listing`. -/
def Store.add_listing (s : Store) (condition : Condition) (price : ℚ)
    (quantity : ℕ) : Store :=
  { s with listings := s.listings ++ [⟨condition, price, quantity⟩] }

/-- `Store.card_price` (scraper.py lines 79-88): running sum of
`listing.total_price` over the listings. -/
def Store.card_price (s : Store) : ℚ :=
  s.listings.foldl (fun price l => price + l.total_price) 0

/-- `Store.achieved_free_shipping` (scraper.py lines 90-100): `False` when no
threshold exists, else `card_price >= free_threshold`. -/
def Store.achieved_free_shipping (s : Store) : Bool :=
  match s.free_threshold with
  | none => false
  | some t => decide (t ≤ s.card_price)

/-- `Store.shipping_price` (scraper.py lines 102-117): the flat cost when no
threshold exists or `card_price < free_threshold`, else `0`. -/
def Store.shipping_price (s : Store) : ℚ :=
  match s.free_threshold with
  | none => s.shipping
  | some t => if s.card_price < t then s.shipping else 0

/-- `Store.money_to_free_shipping` (scraper.py lines 119-135): `None` when no
threshold exists or `card_price > free_threshold` (strict!), else
`free_threshold - card_price`. -/
def Store.money_to_free_shipping (s : Store) : Option ℚ :=
  match s.free_threshold with
  | none => none
  | some t => if t < s.card_price then none else some (t - s.card_price)

/-- Store-level `total_price` (scraper.py lines 137-143):
`card_price + shipping_price`. -/
def Store.total_price (s : Store) : ℚ := s.card_price + s.shipping_price

/-- `Store.total_quantity` (scraper.py lines 145-154): running sum of listing
quantities. -/
def Store.total_quantity (s : Store) : ℕ :=
  s.listings.foldl (fun quantity l => quantity + l.quantity) 0

/-- `Store.price_per_card` (scraper.py lines 156-162):
`total_price / total_quantity`. -/
def Store.price_per_card (s : Store) : ℚ := s.total_price / (s.total_quantity : ℚ)

/-- `Store.__lt__` (scraper.py lines 195-205): compare `price_per_card`; on a tie
compare `total_quantity` with `<`. -/
def Store.lt (a b : Store) : Bool :=
  if a.price_per_card = b.price_per_card then
    decide (a.total_quantity < b.total_quantity)
  else
    decide (a.price_per_card < b.price_per_card)

/-- Stable insertion of a store into an already ranked list: `x` goes after every
element strictly `lt`-below it and before the first element that is not. For the
strict weak order `Store.lt` this reproduces the unique stable ascending order of
Python `list.sort()`, which compares elements with `__lt__` only. -/
def insertRanked (x : Store) : List Store → List Store
  | [] => [x]
  | y :: ys => if Store.lt y x then y :: insertRanked x ys else x :: y :: ys

/-- `results.sort()` from scraper.py line 246: stable ascending sort of the stores
under `Store.__lt__`. -/
def rankStores : List Store → List Store
  | [] => []
  | x :: xs => insertRanked x (rankStores xs)

/-- A concrete store sitting exactly at its free-shipping threshold:
one listing of 1 card at 5.00, threshold 5.00. -/
def storeBoundary : Store :=
  { name := "Acme"
    shipping := 399/100
    free_threshold := some 5
    listings := [⟨Condition.NEAR_MINT, 5, 1⟩] }

/-- A concrete store strictly above its free-shipping threshold:
two cards at 3.00 each, threshold 5.00. -/
def storeAbove : Store :=
  { name := "Beta"
    shipping := 399/100
    free_threshold := some 5
    listings := [⟨Condition.NEAR_MINT, 3, 2⟩] }

/-- A concrete store with no free-shipping threshold. -/
def storeNoThresh : Store :=
  { name := "Gamma"
    shipping := 399/100
    free_threshold := none
    listings := [⟨Condition.DAMAGED, 1, 2⟩] }

/-- C1, counterexample: for the store `storeBoundary` whose `card_price` equals its
threshold exactly, `achieved_free_shipping` is true and `shipping_price` is 0 as the
claim says, but `money_to_free_shipping` is `some 0`, not absent — the `>` test at
scraper.py line 130 sends the boundary case to the `else` branch that returns
`free_threshold - card_price = 0`. -/
theorem C1_counterexample :
    storeBoundary.free_threshold = some 5 ∧
    storeBoundary.card_price = 5 ∧
    storeBoundary.achieved_free_shipping = true ∧
    storeBoundary.shipping_price = 0 ∧
    storeBoundary.money_to_free_shipping = some 0 ∧
    storeBoundary.money_to_free_shipping ≠ none := by
  have hmoney : storeBoundary.money_to_free_shipping = some 0 := by
    norm_num [storeBoundary, Store.money_to_free_shipping, Store.card_price,
      Listing.total_price]
  refine ⟨rfl, ?_, ?_, ?_, hmoney, by simp [hmoney]⟩ <;>
    norm_num [storeBoundary, Store.card_price, Store.achieved_free_shipping,
      Store.shipping_price, Listing.total_price]

/-- C1, amended: for every Store with a threshold present whose `card_price` equals
the threshold exactly, the boundary is treated as achieved — `achieved_free_shipping`
is true and `shipping_price` is 0 — but `money_to_free_shipping` is present with
value 0 (it is `None` only when `card_price` strictly exceeds the threshold). -/
theorem C1_boundary (s : Store) (t : ℚ) (h1 : s.free_threshold = some t)
    (h2 : s.card_price = t) :
    s.achieved_free_shipping = true ∧ s.shipping_price = 0 ∧
      s.money_to_free_shipping = some 0 := by
  unfold Store.achieved_free_shipping Store.shipping_price Store.money_to_free_shipping
  rw [h1, h2]
  simp

/-- C1, witness: the amended boundary behaviour at the concrete store
`storeBoundary`. -/
theorem C1_boundary_witness :
    storeBoundary.achieved_free_shipping = true ∧ storeBoundary.shipping_price = 0 ∧
      storeBoundary.money_to_free_shipping = some 0 :=
  C1_boundary storeBoundary 5 rfl
    (by norm_num [storeBoundary, Store.card_price, Listing.total_price])

/-- C5: for every Store with a threshold present, `achieved_free_shipping` holds
exactly when `card_price >= free_threshold`, and whenever it holds the
`shipping_price` is 0. -/
theorem C5_achieved_iff (s : Store) (t : ℚ) (h : s.free_threshold = some t) :
    (s.achieved_free_shipping = true ↔ t ≤ s.card_price) ∧
      (s.achieved_free_shipping = true → s.shipping_price = 0) := by
  unfold Store.achieved_free_shipping Store.shipping_price
  rw [h]
  constructor
  · simp only [decide_eq_true_eq]
  · intro hle
    simp only [decide_eq_true_eq] at hle
    exact if_neg (not_lt.mpr hle)

/-- C5, witness: the free-shipping characterization at the concrete store
`storeAbove` (threshold 5, card_price 6). -/
theorem C5_achieved_iff_witness :
    (storeAbove.achieved_free_shipping = true ↔ (5 : ℚ) ≤ storeAbove.card_price) ∧
      (storeAbove.achieved_free_shipping = true → storeAbove.shipping_price = 0) :=
  C5_achieved_iff storeAbove 5 rfl

/-- C6: for every Store with no threshold, `shipping_price` is the flat
`shipping` cost and `money_to_free_shipping` is absent, whatever `card_price` is. -/
theorem C6_no_threshold (s : Store) (h : s.free_threshold = none) :
    s.shipping_price = s.shipping ∧ s.money_to_free_shipping = none := by
  unfold Store.shipping_price Store.money_to_free_shipping
  rw [h]
  exact ⟨rfl, rfl⟩

/-- C6, witness: the no-threshold behaviour at the concrete store
`storeNoThresh`. -/
theorem C6_no_threshold_witness :
    storeNoThresh.shipping_price = storeNoThresh.shipping ∧
      storeNoThresh.money_to_free_shipping = none :=
  C6_no_threshold storeNoThresh rfl

/-- C7: for every Store, the store-level `total_price` is
`card_price + shipping_price`. -/
theorem C7_total_price (s : Store) :
    s.total_price = s.card_price + s.shipping_price := rfl

/-- Store A of the ranking scenario: price_per_card 1.00, total_quantity 5. -/
def storeA : Store :=
  { name := "A"
    shipping := 0
    free_threshold := none
    listings := [⟨Condition.NEAR_MINT, 1, 5⟩] }

/-- Store B of the ranking scenario: price_per_card 1.00, total_quantity 10. -/
def storeB : Store :=
  { name := "B"
    shipping := 0
    free_threshold := none
    listings := [⟨Condition.NEAR_MINT, 1, 10⟩] }

/-- C2, counterexample: stores A and B have equal `price_per_card` (1.00) and
quantities 5 and 10, yet `Store.__lt__` makes A (the smaller quantity) compare
below B, so the ascending stable sort ranks A before B — not B before A as the
claim states. The tie-break at scraper.py line 203 is
`self.total_quantity < other.total_quantity`, i.e. quantity ascending. -/
theorem C2_counterexample :
    storeA.price_per_card = storeB.price_per_card ∧
    storeA.total_quantity = 5 ∧ storeB.total_quantity = 10 ∧
    Store.lt storeA storeB = true ∧
    Store.lt storeB storeA = false ∧
    rankStores [storeA, storeB] = [storeA, storeB] ∧
    rankStores [storeB, storeA] = [storeA, storeB] ∧
    rankStores [storeA, storeB] ≠ [storeB, storeA] := by
  have hA : storeA.price_per_card = 1 := by
    norm_num [storeA, Store.price_per_card, Store.total_price, Store.card_price,
      Store.shipping_price, Store.total_quantity, Listing.total_price]
  have hB : storeB.price_per_card = 1 := by
    norm_num [storeB, Store.price_per_card, Store.total_price, Store.card_price,
      Store.shipping_price, Store.total_quantity, Listing.total_price]
  have hqA : storeA.total_quantity = 5 := by norm_num [storeA, Store.total_quantity]
  have hqB : storeB.total_quantity = 10 := by norm_num [storeB, Store.total_quantity]
  have hltAB : Store.lt storeA storeB = true := by
    simp [Store.lt, hA, hB, hqA, hqB]
  have hltBA : Store.lt storeB storeA = false := by
    simp [Store.lt, hA, hB, hqA, hqB]
  have hrank : rankStores [storeA, storeB] = [storeA, storeB] := by
    simp [rankStores, insertRanked, hltBA]
  have hrank2 : rankStores [storeB, storeA] = [storeA, storeB] := by
    simp [rankStores, insertRanked, hltAB]
  refine ⟨hA.trans hB.symm, hqA, hqB, hltAB, hltBA, hrank, hrank2, ?_⟩
  rw [hrank]
  simp [storeA, storeB]

/-- C2, amended: for every pair of Stores with equal `price_per_card`, the ranking
order places the Store with the SMALLER `total_quantity` first: the tie-break is
`total_quantity` ascending, so in the scenario A (quantity 5) sorts before
B (quantity 10). -/
theorem C2_tiebreak (x y : Store) (h : x.price_per_card = y.price_per_card) :
    Store.lt x y = decide (x.total_quantity < y.total_quantity) := by
  unfold Store.lt
  rw [if_pos h]

/-- C2, witness: the ascending tie-break evaluated at the concrete stores A and B. -/
theorem C2_tiebreak_witness :
    Store.lt storeA storeB = decide (storeA.total_quantity < storeB.total_quantity) :=
  C2_tiebreak storeA storeB
    (by norm_num [storeA, storeB, Store.price_per_card, Store.total_price,
      Store.card_price, Store.shipping_price, Store.total_quantity,
      Listing.total_price])

/-- Numeric value of a run of decimal digit characters, most significant first
(what Python `float`/`int` compute on a digit-run regex group). -/
def natOfDigits (ds : List Char) : ℕ :=
  ds.foldl (fun n c => 10 * n + (c.toNat - 48)) 0

/-- The optional `(\.\d{2})?` tail of the pattern in `find_price`
(scraper.py line 258): right after the integer digits, a dot followed by exactly
two digit characters contributes a two-digit fraction; anything else contributes
nothing. -/
def fracPart : List Char → Option ℕ
  | '.' :: a :: b :: _ =>
    if a.isDigit && b.isDigit then some (natOfDigits [a, b]) else none
  | _ => none

/-- `re.search(r"(\d+(\.\d{2})?)", s)` (scraper.py line 258): scan left to right
for the first digit; the match is the maximal digit run from there plus the
optional two-digit fraction. `none` means the pattern occurs nowhere. -/
def searchNumber : List Char → Option (ℕ × Option ℕ)
  | [] => none
  | c :: cs =>
    if c.isDigit then
      some (natOfDigits ((c :: cs).takeWhile Char.isDigit),
            fracPart ((c :: cs).dropWhile Char.isDigit))
    else searchNumber cs

/-- `float(...)` applied to the matched group: integer part plus the optional
two-digit fraction over 100. -/
def floatValue : ℕ × Option ℕ → ℚ
  | (i, none) => (i : ℚ)
  | (i, some f) => (i : ℚ) + (f : ℚ) / 100

/-- The numeric part of `TCGPlayerParser.find_price` on a string that is present:
the first `\d+(\.\d{2})?` pattern in the string as a number, or `none` when the
regex does not match (in which case `.group(1)` raises in Python). -/
def extractNumber (s : String) : Option ℚ :=
  (searchNumber s.toList).map floatValue

/-- `TCGPlayerParser.find_price` (scraper.py lines 249-258). The outer `Option` is
the error effect: `none` models the exception Python raises when the string is
present but contains no numeric pattern. A `None` argument returns normally with
no number (`some none`). -/
def find_price (price_string : Option String) : Option (Option ℚ) :=
  match price_string with
  | none => some none
  | some s => (extractNumber s).map some

/-- `int(re.search(r"\d+", s).group(0))` (scraper.py line 296): the first run of
digits in the string as an integer, or `none` when there is none (Python raises). -/
def searchNat : List Char → Option ℕ
  | [] => none
  | c :: cs =>
    if c.isDigit then some (natOfDigits ((c :: cs).takeWhile Char.isDigit))
    else searchNat cs

/-- `searchNat` on a string. -/
def searchNatStr (s : String) : Option ℕ := searchNat s.toList

/-- The shipping text fed to `find_price` (scraper.py lines 279-284): the row's
shipping element text when present, else the fixed `"$3.99"` fallback used when
the element is missing (direct shipping). -/
def shippingText : Option String → String
  | some s => s
  | none => "$3.99"

/-- One raw listing row as extracted from the page in `parse_page`
(scraper.py lines 273-290): the four mandatory text fields and the two optional
elements (`none` models `NoSuchElementException` on lookup). -/
structure RawRow where
  seller_name : String
  raw_price : String
  raw_quantity : String
  raw_condition : String
  raw_shipping : Option String
  raw_free_shipping : Option String
deriving DecidableEq

/-- The `self.stores` dictionary (scraper.py line 227): seller name to Store, in
insertion order, as a Python `dict` maintains. -/
abbrev StoreMap := List (String × Store)

/-- Python dict key lookup `self.stores[name]` / `name in self.stores.keys()`:
the value at the first (unique) matching key. -/
def findStore (m : StoreMap) (name : String) : Option Store :=
  match m with
  | [] => none
  | p :: ps => if p.1 = name then some p.2 else findStore ps name

/-- In-place mutation of the store stored under a key
(`self.stores[seller_name].add_listing(...)`): the value at the key is replaced,
all positions kept. -/
def updateStore (m : StoreMap) (name : String) (f : Store → Store) : StoreMap :=
  m.map (fun p => if p.1 = name then (p.1, f p.2) else p)

/-- `if seller_name not in self.stores.keys(): self.stores[seller_name] = Store(...)`
(scraper.py lines 304-305): insert a fresh empty store at the end when the key is
absent; Python dicts append new keys in insertion order. -/
def ensureStore (m : StoreMap) (name : String) (shipping : ℚ)
    (free : Option ℚ) : StoreMap :=
  match findStore m name with
  | some _ => m
  | none => m ++ [(name, ⟨name, shipping, free, []⟩)]

/-- Python equality between the raw condition text (a `str`) and a stored
`listing.condition` (a `Condition` enum member), as evaluated by the membership
test at scraper.py line 308. In Python, `==` between a `str` and a member of a
plain `Enum` is always `False`: `Enum` keeps identity-based equality and never
compares equal to its `value` string. -/
def pyEqStrCondition (_s : String) (_c : Condition) : Bool := false

/-- `condition in (listing.condition for listing in store.listings)`
(scraper.py line 308), where `condition` is still the raw text: membership under
Python `==`, which compares a `str` against `Condition` members. -/
def pyCondMem (s : String) (ls : List Listing) : Bool :=
  ls.any (fun l => pyEqStrCondition s l.condition)

/-- The dedup check and listing append of `parse_page`
(scraper.py lines 307-310), run after the store surely exists: look the store up,
skip the row if the (string vs enum) membership test says the condition is
already present, else convert the condition text with `Condition(...)` (`none`
models the `ValueError` for an unknown label) and append the listing. -/
def addListingStep (stores : StoreMap) (seller rawCond : String) (price : ℚ)
    (quantity : ℕ) : Option StoreMap :=
  match findStore stores seller with
  | none => none
  | some st =>
    if pyCondMem rawCond st.listings then some stores
    else
      match Condition.fromString rawCond with
      | none => none
      | some cond =>
        some (updateStore stores seller (fun s => Store.add_listing s cond price quantity))

/-- One iteration of the row loop of `parse_page` (scraper.py lines 273-310):
parse price, shipping (with the `"$3.99"` fallback), free-shipping threshold and
quantity — any parse failure aborts the run (`none`) — then drop blacklisted
sellers, create the store on first sight of the seller, and run the dedup check
and append. -/
def processRow (bl : List String) (stores : StoreMap) (row : RawRow) :
    Option StoreMap :=
  match extractNumber row.raw_price with
  | none => none
  | some price =>
    match extractNumber (shippingText row.raw_shipping) with
    | none => none
    | some shipping =>
      match find_price row.raw_free_shipping with
      | none => none
      | some free =>
        match searchNatStr row.raw_quantity with
        | none => none
        | some quantity =>
          if row.seller_name ∈ bl then some stores
          else
            addListingStep (ensureStore stores row.seller_name shipping free)
              row.seller_name row.raw_condition price quantity

/-- The whole scraping loop over the raw rows of all pages, in order
(scraper.py lines 239-247 and 260-310): fold `processRow` with fail-fast error
propagation. -/
def processRows (bl : List String) (stores : StoreMap) : List RawRow → Option StoreMap
  | [] => some stores
  | r :: rs =>
    match processRow bl stores r with
    | none => none
    | some m => processRows bl m rs

/-- `TCGPlayerParser.scrape_prices` (scraper.py lines 233-247) restricted to its
aggregation content: fold all rows into the store map starting from the empty
dictionary, then sort the dict values with the stable ascending sort under
`Store.__lt__`. -/
def scrape_prices (bl : List String) (rows : List RawRow) : Option (List Store) :=
  (processRows bl [] rows).map (fun m => rankStores (m.map Prod.snd))

/-- The membership test of the dedup check can never succeed: Python `==`
between the raw text and an enum member is identically `False`. -/
theorem pyCondMem_false (s : String) (ls : List Listing) : pyCondMem s ls = false := by
  simp [pyCondMem, pyEqStrCondition]

theorem findStore_append (m l : StoreMap) (n : String)
    (h : findStore m n = none) : findStore (m ++ l) n = findStore l n := by
  induction m with
  | nil => simp [findStore]
  | cons p ps ih =>
    simp only [findStore] at h
    by_cases hp : p.1 = n
    · rw [if_pos hp] at h; exact Option.noConfusion h
    · rw [if_neg hp] at h
      rw [List.cons_append]
      simp only [findStore, if_neg hp]
      exact ih h

theorem findStore_singleton_self (n : String) (s : Store) :
    findStore [(n, s)] n = some s := by
  simp [findStore]

theorem findStore_updateStore_self (m : StoreMap) (n : String) (f : Store → Store) :
    findStore (updateStore m n f) n = (findStore m n).map f := by
  induction m with
  | nil => simp [findStore, updateStore]
  | cons p ps ih =>
    by_cases hp : p.1 = n
    · simp [updateStore, findStore, hp]
    · simp only [updateStore, List.map_cons, if_neg hp] at ih ⊢
      simp only [findStore, if_neg hp]
      exact ih

theorem ensureStore_of_found (m : StoreMap) (n : String) (sh : ℚ) (fr : Option ℚ)
    (st : Store) (h : findStore m n = some st) : ensureStore m n sh fr = m := by
  unfold ensureStore
  rw [h]

theorem findStore_ensureStore_of_none (m : StoreMap) (n : String) (sh : ℚ)
    (fr : Option ℚ) (h : findStore m n = none) :
    findStore (ensureStore m n sh fr) n = some ⟨n, sh, fr, []⟩ := by
  unfold ensureStore
  rw [h, findStore_append m _ n h, findStore_singleton_self]

theorem mem_updateStore (m : StoreMap) (n : String) (f : Store → Store)
    (p : String × Store) (h : p ∈ updateStore m n f) :
    ∃ q ∈ m, (q.1 ≠ n ∧ p = q) ∨ (q.1 = n ∧ p = (q.1, f q.2)) := by
  unfold updateStore at h
  obtain ⟨q, hq, hpq⟩ := List.mem_map.mp h
  by_cases hqn : q.1 = n
  · exact ⟨q, hq, Or.inr ⟨hqn, by rw [← hpq, if_pos hqn]⟩⟩
  · exact ⟨q, hq, Or.inl ⟨hqn, by rw [← hpq, if_neg hqn]⟩⟩

theorem mem_ensureStore (m : StoreMap) (n : String) (sh : ℚ) (fr : Option ℚ)
    (p : String × Store) (h : p ∈ ensureStore m n sh fr) :
    p ∈ m ∨ p = (n, ⟨n, sh, fr, []⟩) := by
  unfold ensureStore at h
  cases hf : findStore m n with
  | some st => rw [hf] at h; exact Or.inl h
  | none =>
    rw [hf] at h
    rcases List.mem_append.mp h with h1 | h1
    · exact Or.inl h1
    · exact Or.inr (List.mem_singleton.mp h1)

/-- `addListingStep` never takes the dedup-skip branch (the membership test is
identically false), so a successful step is exactly an append to the seller's
store. -/
theorem addListingStep_some (stores : StoreMap) (seller rawCond : String)
    (price : ℚ) (q : ℕ) (m' : StoreMap)
    (h : addListingStep stores seller rawCond price q = some m') :
    ∃ cond, Condition.fromString rawCond = some cond ∧
      m' = updateStore stores seller
        (fun s => Store.add_listing s cond price q) := by
  unfold addListingStep at h
  split at h
  · exact Option.noConfusion h
  · rw [pyCondMem_false] at h
    simp only [Bool.false_eq_true, if_false] at h
    split at h
    · exact Option.noConfusion h
    · rename_i cond hcond
      exact ⟨cond, hcond, (Option.some.inj h).symm⟩

/-- Decomposition of one successful row step: either the seller was blacklisted
and the map is untouched, or all five parses succeeded and the result is the map
with the seller's store ensured and one listing appended to it. -/
theorem processRow_some (bl : List String) (stores : StoreMap) (row : RawRow)
    (m' : StoreMap) (h : processRow bl stores row = some m') :
    (row.seller_name ∈ bl ∧ m' = stores) ∨
    ∃ sh fr price q cond,
      row.seller_name ∉ bl ∧
      extractNumber row.raw_price = some price ∧
      extractNumber (shippingText row.raw_shipping) = some sh ∧
      find_price row.raw_free_shipping = some fr ∧
      searchNatStr row.raw_quantity = some q ∧
      Condition.fromString row.raw_condition = some cond ∧
      m' = updateStore (ensureStore stores row.seller_name sh fr)
        row.seller_name (fun s => Store.add_listing s cond price q) := by
  unfold processRow at h
  split at h
  · exact Option.noConfusion h
  rename_i price hprice
  split at h
  · exact Option.noConfusion h
  rename_i sh hsh
  split at h
  · exact Option.noConfusion h
  rename_i fr hfr
  split at h
  · exact Option.noConfusion h
  rename_i q hq
  split at h
  · rename_i hbl
    exact Or.inl ⟨hbl, (Option.some.inj h).symm⟩
  · rename_i hbl
    obtain ⟨cond, hcond, rfl⟩ := addListingStep_some _ _ _ _ _ _ h
    exact Or.inr ⟨sh, fr, price, q, cond, hbl, hprice, hsh, hfr, hq, hcond, rfl⟩

theorem mem_insertRanked (x a : Store) (l : List Store) :
    a ∈ insertRanked x l ↔ a = x ∨ a ∈ l := by
  induction l with
  | nil => simp [insertRanked]
  | cons y ys ih =>
    unfold insertRanked
    by_cases hlt : Store.lt y x
    · simp only [hlt, if_true, List.mem_cons, ih]
      tauto
    · rw [if_neg hlt]
      simp only [List.mem_cons, ih]

/-- The ranking sort permutes the stores: membership is unchanged. -/
theorem mem_rankStores (a : Store) (l : List Store) :
    a ∈ rankStores l ↔ a ∈ l := by
  induction l with
  | nil => simp [rankStores]
  | cons x xs ih => simp [rankStores, mem_insertRanked, ih]

theorem extract399 : extractNumber "$3.99" = some (399 / 100 : ℚ) := by
  have h : searchNumber "$3.99".toList = some (3, some 99) := by decide
  rw [extractNumber, h]
  norm_num [floatValue]

theorem extract010 : extractNumber "$0.10" = some (1 / 10 : ℚ) := by
  have h : searchNumber "$0.10".toList = some (0, some 10) := by decide
  rw [extractNumber, h]
  norm_num [floatValue]

theorem extract020 : extractNumber "$0.20" = some (1 / 5 : ℚ) := by
  have h : searchNumber "$0.20".toList = some (0, some 20) := by decide
  rw [extractNumber, h]
  norm_num [floatValue]

theorem extract100 : extractNumber "$1.00" = some (1 : ℚ) := by
  have h : searchNumber "$1.00".toList = some (1, some 0) := by decide
  rw [extractNumber, h]
  norm_num [floatValue]

theorem extract500 : extractNumber "$5.00 minimum" = some (5 : ℚ) := by
  have h : searchNumber "$5.00 minimum".toList = some (5, some 0) := by decide
  rw [extractNumber, h]
  norm_num [floatValue]

/-- The raw "Acme" row of the end-to-end scenario: Near Mint at $0.10, 4
available, no shipping text, no free-shipping text. -/
def rowAcme : RawRow :=
  { seller_name := "Acme"
    raw_price := "$0.10"
    raw_quantity := "4 available"
    raw_condition := "Near Mint"
    raw_shipping := none
    raw_free_shipping := none }

/-- The "Acme" store after one accepted `rowAcme`. -/
def storeAcme1 : Store :=
  ⟨"Acme", 399 / 100, none, [⟨Condition.NEAR_MINT, 1 / 10, 4⟩]⟩

/-- The "Acme" store the code actually produces after `rowAcme` is processed
twice: the listing is duplicated. -/
def storeAcmeDup : Store :=
  ⟨"Acme", 399 / 100, none,
    [⟨Condition.NEAR_MINT, 1 / 10, 4⟩, ⟨Condition.NEAR_MINT, 1 / 10, 4⟩]⟩

/-- A later "Acme" row at a different condition: Lightly Played at $0.20,
3 available, with shipping and free-shipping text present. -/
def rowAcmeLP : RawRow :=
  { seller_name := "Acme"
    raw_price := "$0.20"
    raw_quantity := "3 of these"
    raw_condition := "Lightly Played"
    raw_shipping := some "$1.00"
    raw_free_shipping := some "$5.00 minimum" }

/-- A row for the blacklisted seller "Bad". -/
def rowBad : RawRow :=
  { seller_name := "Bad"
    raw_price := "$1.00"
    raw_quantity := "1 available"
    raw_condition := "Near Mint"
    raw_shipping := none
    raw_free_shipping := none }

/-- C3 (code bug): processing the identical "Acme" row twice does not leave the
store unchanged. The dedup check at scraper.py line 308 compares the raw
condition text (a Python `str`) against the stored `Condition` enum members, a
comparison that is always false, so the second copy of the row appends a second
`Listing`: the store ends with 2 listings and `total_quantity` 8, where the
claim requires exactly one listing and unchanged totals. -/
theorem C3_dedup_bug :
    processRows [] [] [rowAcme, rowAcme] = some [("Acme", storeAcmeDup)] ∧
    storeAcmeDup.listings.length = 2 ∧
    storeAcmeDup.total_quantity = 8 := by
  refine ⟨?_, by decide, by decide⟩
  simp [processRows, processRow, rowAcme, extract010, extract399, shippingText,
    find_price, searchNatStr, searchNat, natOfDigits, List.takeWhile,
    Condition.fromString, addListingStep, ensureStore, findStore, updateStore,
    pyCondMem, pyEqStrCondition, Store.add_listing, storeAcmeDup]

/-- A store map in which no key and no store name equals `name`. -/
def avoidsName (name : String) (m : StoreMap) : Prop :=
  ∀ p ∈ m, p.1 ≠ name ∧ p.2.name ≠ name

theorem processRow_avoids (bl : List String) (stores : StoreMap) (row : RawRow)
    (m' : StoreMap) (name : String) (hname : name ∈ bl)
    (hP : avoidsName name stores) (h : processRow bl stores row = some m') :
    avoidsName name m' := by
  rcases processRow_some bl stores row m' h with ⟨_, rfl⟩ |
    ⟨sh, fr, price, q, cond, hbl, _, _, _, _, _, rfl⟩
  · exact hP
  · intro p hp
    obtain ⟨r, hr, hcase⟩ := mem_updateStore _ _ _ _ hp
    have hrn : r.1 ≠ name ∧ r.2.name ≠ name := by
      rcases mem_ensureStore _ _ _ _ _ hr with h1 | rfl
      · exact hP r h1
      · have hne : row.seller_name ≠ name := fun e => hbl (e ▸ hname)
        exact ⟨hne, hne⟩
    rcases hcase with ⟨_, rfl⟩ | ⟨_, rfl⟩
    · exact hrn
    · exact ⟨hrn.1, hrn.2⟩

theorem processRows_avoids (bl : List String) (name : String) (hname : name ∈ bl)
    (rows : List RawRow) :
    ∀ stores m : StoreMap, avoidsName name stores →
      processRows bl stores rows = some m → avoidsName name m := by
  induction rows with
  | nil =>
    intro stores m hP h
    simp only [processRows] at h
    exact (Option.some.inj h) ▸ hP
  | cons r rs ih =>
    intro stores m hP h
    simp only [processRows] at h
    cases hr : processRow bl stores r with
    | none => rw [hr] at h; exact Option.noConfusion h
    | some m1 =>
      rw [hr] at h
      exact ih m1 m (processRow_avoids bl stores r m1 name hname hP hr) h

/-- C4: a seller name on the blacklist never becomes a key of the seller map,
and never appears among the names of the final ranked output, however many rows
carry it. -/
theorem C4_blacklist (bl : List String) (rows : List RawRow) (name : String)
    (m : StoreMap) (hname : name ∈ bl) (h : processRows bl [] rows = some m) :
    name ∉ m.map Prod.fst ∧
      name ∉ (rankStores (m.map Prod.snd)).map Store.name := by
  have hP : avoidsName name m :=
    processRows_avoids bl name hname rows [] m (by intro p hp; cases hp) h
  constructor
  · intro hmem
    obtain ⟨p, hp, hpe⟩ := List.mem_map.mp hmem
    exact (hP p hp).1 hpe
  · intro hmem
    obtain ⟨st, hst, hste⟩ := List.mem_map.mp hmem
    obtain ⟨p, hp, hpe⟩ := List.mem_map.mp ((mem_rankStores st _).mp hst)
    exact (hP p hp).2 (by rw [hpe]; exact hste)

/-- C4, witness: blacklisting "Bad" on a run consisting of one "Bad" row yields
the empty map and empty ranking, with "Bad" in neither. -/
theorem C4_blacklist_witness :
    "Bad" ∉ (([] : StoreMap)).map Prod.fst ∧
      "Bad" ∉ (rankStores (([] : StoreMap).map Prod.snd)).map Store.name :=
  C4_blacklist ["Bad"] [rowBad] "Bad" [] (by simp)
    (by simp [processRows, processRow, rowBad, extract100, extract399,
      shippingText, find_price, searchNatStr, searchNat, natOfDigits,
      List.takeWhile])

/-- C8: absent optional fields are not errors. With no shipping text the parsed
shipping cost is the fixed 3.99 fallback, with no free-shipping text the created
store's threshold is absent (never the number zero), and `find_price` returns an
absent result (not an error) for an absent input string. -/
theorem C8_absent_fields (bl : List String) (stores : StoreMap) (row : RawRow)
    (m' : StoreMap) (h1 : row.raw_shipping = none)
    (h2 : row.raw_free_shipping = none)
    (h3 : findStore stores row.seller_name = none)
    (h4 : row.seller_name ∉ bl)
    (h5 : processRow bl stores row = some m') :
    find_price none = some none ∧
    ∃ st, findStore m' row.seller_name = some st ∧
      st.shipping = 399 / 100 ∧ st.free_threshold = none := by
  refine ⟨rfl, ?_⟩
  rcases processRow_some bl stores row m' h5 with ⟨hbl, rfl⟩ |
    ⟨sh, fr, price, q, cond, hbl, hprice, hsh, hfr, hq, hcond, rfl⟩
  · exact absurd hbl h4
  · rw [h1] at hsh
    rw [h2] at hfr
    have hsh' : sh = 399 / 100 := by
      have h399 : extractNumber "$3.99" = some sh := hsh
      rw [extract399] at h399
      exact (Option.some.inj h399).symm
    have hfr' : fr = none := by
      have hnone : (some (none : Option ℚ)) = some fr := hfr
      exact (Option.some.inj hnone).symm
    subst hsh' hfr'
    rw [findStore_updateStore_self, findStore_ensureStore_of_none _ _ _ _ h3]
    exact ⟨_, rfl, rfl, rfl⟩

/-- C8, witness: the "Acme" row with both optional fields absent produces a store
with the 3.99 fallback shipping and an absent threshold. -/
theorem C8_absent_fields_witness :
    find_price none = some none ∧
    ∃ st, findStore [("Acme", storeAcme1)] rowAcme.seller_name = some st ∧
      st.shipping = 399 / 100 ∧ st.free_threshold = none :=
  C8_absent_fields [] [] rowAcme [("Acme", storeAcme1)] rfl rfl rfl (by simp)
    (by simp [processRow, rowAcme, extract010, extract399, shippingText,
      find_price, searchNatStr, searchNat, natOfDigits, List.takeWhile,
      Condition.fromString, addListingStep, ensureStore, findStore, updateStore,
      pyCondMem, pyEqStrCondition, Store.add_listing, storeAcme1])

/-- C9: seller-level attributes come from the first accepted row and are never
updated afterwards. Part 1: on first sight of a seller, the created store's
shipping cost and free-shipping threshold are exactly this row's parsed values,
and its name is the seller name. Part 2: a row for a seller whose store already
exists leaves name, shipping cost and threshold unchanged, at most appending one
listing. -/
theorem C9_seller_attrs :
    (∀ (bl : List String) (stores : StoreMap) (row : RawRow) (m' : StoreMap),
      findStore stores row.seller_name = none → row.seller_name ∉ bl →
      processRow bl stores row = some m' →
      ∃ st', findStore m' row.seller_name = some st' ∧
        st'.name = row.seller_name ∧
        extractNumber (shippingText row.raw_shipping) = some st'.shipping ∧
        find_price row.raw_free_shipping = some st'.free_threshold) ∧
    (∀ (bl : List String) (stores : StoreMap) (row : RawRow) (st : Store)
      (m' : StoreMap),
      findStore stores row.seller_name = some st →
      processRow bl stores row = some m' →
      ∃ st', findStore m' row.seller_name = some st' ∧
        st'.name = st.name ∧ st'.shipping = st.shipping ∧
        st'.free_threshold = st.free_threshold ∧
        (st'.listings = st.listings ∨ ∃ l, st'.listings = st.listings ++ [l])) := by
  constructor
  · intro bl stores row m' hnone hbl h
    rcases processRow_some bl stores row m' h with ⟨hbl2, rfl⟩ |
      ⟨sh, fr, price, q, cond, _, _, hsh, hfr, _, _, rfl⟩
    · exact absurd hbl2 hbl
    · rw [findStore_updateStore_self, findStore_ensureStore_of_none _ _ _ _ hnone]
      exact ⟨_, rfl, rfl, hsh, hfr⟩
  · intro bl stores row st m' hfound h
    rcases processRow_some bl stores row m' h with ⟨_, rfl⟩ |
      ⟨sh, fr, price, q, cond, _, _, _, _, _, _, rfl⟩
    · exact ⟨st, hfound, rfl, rfl, rfl, Or.inl rfl⟩
    · rw [ensureStore_of_found _ _ _ _ _ hfound, findStore_updateStore_self,
        hfound]
      exact ⟨_, rfl, rfl, rfl, rfl, Or.inr ⟨_, rfl⟩⟩

/-- The "Acme" map after `rowAcme` and then `rowAcmeLP`: the second row appended
its Lightly Played listing but did not touch the seller-level attributes, even
though it carried its own shipping ($1.00) and free-shipping ($5.00) text. -/
def mapAcmeLP : StoreMap :=
  [("Acme", ⟨"Acme", 399 / 100, none,
    [⟨Condition.NEAR_MINT, 1 / 10, 4⟩, ⟨Condition.LIGHTLY_PLAYED, 1 / 5, 3⟩]⟩)]

/-- C9, witness: both parts applied to the concrete "Acme" run. -/
theorem C9_seller_attrs_witness :
    (∃ st', findStore [("Acme", storeAcme1)] rowAcme.seller_name = some st' ∧
      st'.name = rowAcme.seller_name ∧
      extractNumber (shippingText rowAcme.raw_shipping) = some st'.shipping ∧
      find_price rowAcme.raw_free_shipping = some st'.free_threshold) ∧
    (∃ st', findStore mapAcmeLP rowAcmeLP.seller_name = some st' ∧
      st'.name = storeAcme1.name ∧ st'.shipping = storeAcme1.shipping ∧
      st'.free_threshold = storeAcme1.free_threshold ∧
      (st'.listings = storeAcme1.listings ∨
        ∃ l, st'.listings = storeAcme1.listings ++ [l])) :=
  ⟨C9_seller_attrs.1 [] [] rowAcme [("Acme", storeAcme1)] rfl (by simp)
    (by simp [processRow, rowAcme, extract010, extract399, shippingText,
      find_price, searchNatStr, searchNat, natOfDigits, List.takeWhile,
      Condition.fromString, addListingStep, ensureStore, findStore, updateStore,
      pyCondMem, pyEqStrCondition, Store.add_listing, storeAcme1]),
   C9_seller_attrs.2 [] [("Acme", storeAcme1)] rowAcmeLP storeAcme1 mapAcmeLP
    (by simp [findStore, rowAcmeLP])
    (by simp [processRow, rowAcmeLP, extract020, extract100, extract500,
      shippingText, find_price, searchNatStr, searchNat, natOfDigits,
      List.takeWhile, Condition.fromString, addListingStep, ensureStore,
      findStore, updateStore, pyCondMem, pyEqStrCondition, Store.add_listing,
      storeAcme1, mapAcmeLP])⟩

theorem total_quantity_add_listing (s : Store) (c : Condition) (pr : ℚ) (q : ℕ) :
    (s.add_listing c pr q).total_quantity = s.total_quantity + q := by
  unfold Store.add_listing Store.total_quantity
  rw [List.foldl_append]
  rfl

/-- Every store of the map has at least one listing and positive total
quantity. -/
def storesPositive (m : StoreMap) : Prop :=
  ∀ p ∈ m, p.2.listings ≠ [] ∧ 1 ≤ p.2.total_quantity

theorem processRow_positive (bl : List String) (stores : StoreMap) (row : RawRow)
    (m' : StoreMap)
    (hq1 : ∀ q, searchNatStr row.raw_quantity = some q → 1 ≤ q)
    (hP : storesPositive stores) (h : processRow bl stores row = some m') :
    storesPositive m' := by
  rcases processRow_some bl stores row m' h with ⟨_, rfl⟩ |
    ⟨sh, fr, price, q, cond, _, _, _, _, hq, _, rfl⟩
  · exact hP
  · have hq' : 1 ≤ q := hq1 q hq
    intro p hp
    obtain ⟨r, hr, hcase⟩ := mem_updateStore _ _ _ _ hp
    rcases mem_ensureStore _ _ _ _ _ hr with h1 | hfresh
    · obtain ⟨hne1, hge⟩ := hP r h1
      rcases hcase with ⟨_, hpr⟩ | ⟨_, hpr⟩
      · rw [hpr]; exact ⟨hne1, hge⟩
      · rw [hpr]
        refine ⟨by simp [Store.add_listing], ?_⟩
        simp [total_quantity_add_listing]
        omega
    · rcases hcase with ⟨hne, hpr⟩ | ⟨_, hpr⟩
      · exact absurd (by rw [hfresh]) hne
      · rw [hpr, hfresh]
        refine ⟨by simp [Store.add_listing], ?_⟩
        simp [Store.add_listing, Store.total_quantity]
        omega

theorem processRows_positive (bl : List String) (rows : List RawRow) :
    ∀ stores m : StoreMap,
      (∀ r ∈ rows, ∀ q, searchNatStr r.raw_quantity = some q → 1 ≤ q) →
      storesPositive stores → processRows bl stores rows = some m →
      storesPositive m := by
  induction rows with
  | nil =>
    intro stores m _ hP h
    simp only [processRows] at h
    exact (Option.some.inj h) ▸ hP
  | cons r rs ih =>
    intro stores m hq hP h
    simp only [processRows] at h
    cases hr : processRow bl stores r with
    | none => rw [hr] at h; exact Option.noConfusion h
    | some m1 =>
      rw [hr] at h
      exact ih m1 m (fun r' hr' => hq r' (List.mem_cons_of_mem _ hr'))
        (processRow_positive bl stores r m1 (hq r (List.mem_cons_self _ _)) hP hr) h

/-- C10: when every row's parsed quantity is at least 1 (the data-model
invariant on `Listing.quantity`), every store of the resulting map has at least
one listing, `total_quantity` at least 1, and hence a nonzero denominator in
`price_per_card`, so the final sort never divides by zero. -/
theorem C10_positive (bl : List String) (rows : List RawRow) (m : StoreMap)
    (hq : ∀ r ∈ rows, ∀ q, searchNatStr r.raw_quantity = some q → 1 ≤ q)
    (h : processRows bl [] rows = some m) :
    ∀ p ∈ m, p.2.listings ≠ [] ∧ 1 ≤ p.2.total_quantity ∧
      ((p.2.total_quantity : ℚ) ≠ 0) := by
  have hP := processRows_positive bl rows [] m hq (by intro p hp; cases hp) h
  intro p hp
  obtain ⟨h1, h2⟩ := hP p hp
  refine ⟨h1, h2, ?_⟩
  have hne : p.2.total_quantity ≠ 0 := by omega
  exact_mod_cast hne

/-- C10, witness: the single-row "Acme" run, whose one store has one listing of
quantity 4. -/
theorem C10_positive_witness :
    storeAcme1.listings ≠ [] ∧ 1 ≤ storeAcme1.total_quantity ∧
      ((storeAcme1.total_quantity : ℚ) ≠ 0) :=
  C10_positive [] [rowAcme] [("Acme", storeAcme1)]
    (by
      intro r hr q hqq
      simp only [List.mem_singleton] at hr
      subst hr
      have h4 : searchNatStr rowAcme.raw_quantity = some 4 := by decide
      rw [h4] at hqq
      cases Option.some.inj hqq
      decide)
    (by simp [processRows, processRow, rowAcme, extract010, extract399,
      shippingText, find_price, searchNatStr, searchNat, natOfDigits,
      List.takeWhile, Condition.fromString, addListingStep, ensureStore,
      findStore, updateStore, pyCondMem, pyEqStrCondition, Store.add_listing,
      storeAcme1])
    ("Acme", storeAcme1) (List.mem_singleton.mpr rfl)
